import Mathlib

/-
Verification of the streetart-analysis record store and editor coordination
layer.  The definitions below are a shallow embedding of the Python sources:

  * GraffitiAnalysis/database.py  - Record / PhotoRecord / ArtRecord, the XML
    codec (read/write + validation) and the Database operations;
  * record-editor.py              - the per-view open-editor bookkeeping
    (selectionActivation / edit_art_record / remove_*_editor);
  * GraffitiAnalysis/widgets.py   - normalized-region to pixel conversions
    (paintEvent, resizeEvent, get_region_geometry).

Python floats are modelled as rationals, Python ints as Lean Int/Nat, and
code that raises exceptions is modelled with Option/Except.  lxml attribute
dictionaries are modelled as unique-keyed association lists.
-/

namespace StreetArt

/-! ## Python-level string and number helpers

Small executable models of the Python built-ins the codec uses:
`str.split` on a one-character separator, `str.strip`, `int(...)`,
`float(...)`, `str(float)` and `round(...)` (banker's rounding).  -/

/-- Whitespace set used by `str.strip()` on the data that occurs in the
database files (plain spaces, tabs and line breaks). -/
def isPySpace (c : Char) : Bool :=
  c = ' ' || c = '\t' || c = '\n' || c = '\r'

/-- Kernel-friendly model of Python's `s.split(c)` for a one-character
separator: splitting the empty string yields `[""]`, exactly as in Python. -/
def splitChar (c : Char) : List Char → List (List Char)
  | [] => [[]]
  | x :: xs =>
    match splitChar c xs with
    | [] => [[x]]
    | g :: gs => if x = c then [] :: g :: gs else (x :: g) :: gs

/-- Model of Python's `str.strip()` on a character list. -/
def pyStripList (l : List Char) : List Char :=
  ((l.dropWhile isPySpace).reverse.dropWhile isPySpace).reverse

/-- Model of Python's `str.strip()`. -/
def pyStrip (s : String) : String :=
  String.mk (pyStripList s.data)

/-- Model of Python's `s.split(c)` for a one-character separator. -/
def pySplit (s : String) (c : Char) : List String :=
  (splitChar c s.data).map String.mk

/-- `[x.strip() for x in s.split(c)]`, the per-element trimming split used
for the comma-delimited list attributes (tags, artists, ...). -/
def pySplitStrip (s : String) (c : Char) : List String :=
  (pySplit s c).map pyStrip

/-- Value of a nonempty all-digit character list; `none` when the list is
empty or contains a non-digit. -/
def digitsVal (l : List Char) : Option Nat :=
  if l = [] then none
  else
    l.foldl
      (fun acc c =>
        acc.bind fun n => if c.isDigit then some (n * 10 + (c.toNat - 48)) else none)
      (some 0)

/-- Model of Python's `int(s)`: optional sign, then decimal digits;
surrounding whitespace is ignored; anything else raises (returns `none`). -/
def pyInt (s : String) : Option Int :=
  match pyStripList s.data with
  | '-' :: rest => (digitsVal rest).map fun n => -(n : Int)
  | l => (digitsVal l).map fun n => (n : Int)

/-- Unsigned part of the `float(s)` model.  Accepts `digits`,
`digits.digits` (either side may be empty but not both), and the auxiliary
`num/den` form produced by `floatToStr` for non-decimal rationals. -/
def pyFloatCore (l : List Char) : Option ℚ :=
  match splitChar '.' l with
  | [a] =>
    match splitChar '/' a with
    | [x] => (digitsVal x).map fun n => (n : ℚ)
    | [x, y] =>
      match digitsVal x, digitsVal y with
      | some n, some d => if d = 0 then none else some ((n : ℚ) / (d : ℚ))
      | _, _ => none
    | _ => none
  | [a, b] =>
    let ip : Option Nat := if a = [] then (if b = [] then none else some 0) else digitsVal a
    let fp : Option Nat := if b = [] then some 0 else digitsVal b
    match ip, fp with
    | some n, some f => some ((n : ℚ) + (f : ℚ) / ((10 : ℚ) ^ b.length))
    | _, _ => none
  | _ => none

/-- Model of Python's `float(s)`; in particular `float("")` raises, which is
modelled as `none`. -/
def pyFloat (s : String) : Option ℚ :=
  match pyStripList s.data with
  | '-' :: rest => (pyFloatCore rest).map fun q => -q
  | l => pyFloatCore l

/-- Model of Python's `str(x)` for a float-valued rational.  Python prints
floats losslessly (`float(str(x)) == x`); the embedding mirrors that with a
decimal form for integral values and an exact fraction otherwise. -/
def floatToStr (q : ℚ) : String :=
  if q.den = 1 then toString q.num ++ ".0"
  else if q.num < 0 then "-" ++ toString (-q.num) ++ "/" ++ toString q.den
  else toString q.num ++ "/" ++ toString q.den

/-- Model of Python 3's `round()` on a rational: nearest integer, ties to
the even integer (banker's rounding), as used in `resizeEvent`. -/
def pyRound (q : ℚ) : ℤ :=
  if q - ⌊q⌋ = 1 / 2 then (if 2 ∣ ⌊q⌋ then ⌊q⌋ else ⌊q⌋ + 1) else round q

/-- First occurrences of the elements of `l`, in encounter order: the key
order of a Python dict/`collections.Counter` built by insertion over `l`. -/
def firstOccurrences {α : Type} [DecidableEq α] (l : List α) : List α :=
  l.foldl (fun acc x => if x ∈ acc then acc else acc ++ [x]) []

/-- The values occurring more than once in `l`, in first-encounter order:
`[item for item, count in collections.Counter(l).items() if count > 1]`. -/
def pyDuplicates {α : Type} [DecidableEq α] (l : List α) : List α :=
  (firstOccurrences l).filter fun x => 1 < l.count x

/-- Model of Python's `max(list)`: `none` on the empty list (where Python
raises `ValueError`). -/
def listMax : List Int → Option Int
  | [] => none
  | x :: xs => some (xs.foldl max x)

/-! ## The generic `Record` type (database.py lines 744-819)

`Record` is a dictionary-like container with a fixed set of readable keys
(`_keys`, all of which must be initialized) and a set of mutable keys
(`_mutable_keys`).  `__setitem__` refuses any key outside the mutable set. -/

/-- Embedding of `Record`: the two key lists and the `_info` backing dict
(a unique-keyed association list), generic over the stored value type. -/
structure PyRecord (V : Type) where
  keys : List String
  mutable_keys : List String
  info : List (String × V)
deriving DecidableEq

/-- Python dict assignment `d[k] = v`: replaces the value of an existing
key in place, otherwise appends the new key at the end. -/
def dictSet {V : Type} (l : List (String × V)) (k : String) (v : V) : List (String × V) :=
  if l.any (fun kv => kv.1 = k) then l.map fun kv => if kv.1 = k then (k, v) else kv
  else l ++ [(k, v)]

/-- `Record.__setitem__` (database.py lines 802-819): raises `KeyError`
for any key not in `_mutable_keys`, otherwise updates `_info`. -/
def PyRecord.setItem {V : Type} (r : PyRecord V) (key : String) (v : V) :
    Except String (PyRecord V) :=
  if key ∈ r.mutable_keys then .ok { r with info := dictSet r.info key v }
  else .error (key ++ " is not a mutable key!")

/-- The record as observed after a `record[key] = v` attempt: the updated
record on success, the untouched record when the assignment raised. -/
def PyRecord.setItemState {V : Type} (r : PyRecord V) (key : String) (v : V) : PyRecord V :=
  match r.setItem key v with
  | .ok r2 => r2
  | .error _ => r

/-- `Record.__getitem__`: `_info[key]`, `none` when the key is absent. -/
def PyRecord.getItem {V : Type} (r : PyRecord V) (key : String) : Option V :=
  (r.info.find? fun kv => kv.1 = key).map Prod.snd

/-- `PhotoRecord._readable_keys` (database.py lines 1001-1002). -/
def photoReadableKeys : List String :=
  ["created_time", "filename", "id", "location",
   "modified_time", "resolution", "rotation", "state", "tags"]

/-- `PhotoRecord._mutable_keys` (database.py line 1003).  Note that
`location` and `rotation` are not in this list. -/
def photoMutableKeys : List String :=
  ["filename", "modified_time", "state", "tags"]

/-- `ArtRecord._readable_keys` (database.py lines 904-906). -/
def artReadableKeys : List String :=
  ["artists", "associates", "created_time", "date",
   "id", "modified_time", "photo_id", "quality",
   "region", "size", "state", "type", "vandals"]

/-- `ArtRecord._mutable_keys` (database.py lines 907-909). -/
def artMutableKeys : List String :=
  ["artists", "associates", "date", "modified_time",
   "quality", "region", "size", "state", "type",
   "vandals"]

/-! ## Typed photo and art records

The concrete schemas are fixed, so the typed structures below are the
shallow embedding of `PhotoRecord` / `ArtRecord` instances; the dynamic
key machinery itself is covered by `PyRecord` above.  `location`,
`resolution` and `region` keep the variable lengths the Python parser can
produce. -/

structure PhotoRec where
  id : Int
  filename : String
  resolution : List Int
  state : String
  location : Option (List ℚ)
  rotation : Int
  created_time : ℚ
  modified_time : ℚ
  tags : List String
deriving DecidableEq

structure ArtRec where
  id : Int
  photo_id : Int
  type : String
  artists : List String
  associates : List String
  size : String
  quality : String
  vandals : List String
  created_time : ℚ
  modified_time : ℚ
  date : Option String
  state : String
  region : Option (List ℚ)
deriving DecidableEq

/-- `PhotoRecord.__init__` (database.py lines 955-1018).  `now` stands for
`time.mktime(time.gmtime())`; optional parameters are `Option`s defaulted
exactly as in the source.  Lines 1005-1006 overwrite the supplied
`resolution` and `tags` with the constants `(4112, 3884)` and `[]` before
the record is initialized, so both arguments are discarded. -/
def mkPhotoRecord (now : ℚ) (id : Int) (filename : String) (resolution : List Int)
    (state : Option String) (location : Option (List ℚ)) (rotation : Int)
    (created_time modified_time : Option ℚ) (tags : Option (List String)) : PhotoRec :=
  let st := state.getD "unreviewed"
  let created := created_time.getD now
  let modified := modified_time.getD created
  { id := id
    filename := filename
    resolution := [4112, 3884]
    state := st
    location := location
    rotation := rotation
    created_time := created
    modified_time := modified
    tags := [] }

/-- `ArtRecord.__init__` (database.py lines 848-929).  `now` stands for
`time.mktime(time.gmtime())`; optional parameters default as in the
source (`artists` to `["Unknown"]`, `size` to `"medium"`, `quality` to
`"fair"`, `state` to `"unreviewed"`, `modified_time` to `created_time`). -/
def mkArtRecord (now : ℚ) (id photo_id : Int) (type : String)
    (artists associates : Option (List String)) (size quality : Option String)
    (vandals : Option (List String)) (created_time modified_time : Option ℚ)
    (date : Option String) (state : Option String) (region : Option (List ℚ)) : ArtRec :=
  let st := state.getD "unreviewed"
  let created := created_time.getD now
  let modified := modified_time.getD created
  { id := id
    photo_id := photo_id
    type := type
    artists := artists.getD ["Unknown"]
    associates := associates.getD []
    size := size.getD "medium"
    quality := quality.getD "fair"
    vandals := vandals.getD []
    created_time := created
    modified_time := modified
    date := date
    state := st
    region := region }

/-! ## Region geometry (widgets.py)

`RubberBandedLabel.get_region_geometry` divides the band geometry by the
label size; `resizeEvent` (lines 885-888) converts a normalized band back
to pixels with `round(...)` on every component; the band drawing loop in
`MultiRubberBandedLabel.paintEvent` (lines 1064-1067) scales the
normalized geometry without any rounding. -/

/-- `get_region_geometry(True)` (widgets.py lines 857-869): normalize the
band geometry against the label size; a zero-sized label raises
`ZeroDivisionError`, modelled as `none`. -/
def get_region_geometry_normalized (geom : ℚ × ℚ × ℚ × ℚ) (size : ℚ × ℚ) :
    Option (ℚ × ℚ × ℚ × ℚ) :=
  if size.1 = 0 || size.2 = 0 then none
  else
    some (geom.1 / size.1, geom.2.1 / size.2, geom.2.2.1 / size.1, geom.2.2.2 / size.2)

/-- The geometry handed to `QPainter.drawRect` in `paintEvent`
(widgets.py lines 1064-1067): an elementwise product, with no rounding. -/
def paint_band_geometry (ng : ℚ × ℚ × ℚ × ℚ) (size : ℚ × ℚ) : ℚ × ℚ × ℚ × ℚ :=
  (ng.1 * size.1, ng.2.1 * size.2, ng.2.2.1 * size.1, ng.2.2.2 * size.2)

/-- The banded-region geometry computed in `resizeEvent` (widgets.py lines
885-888): each component is `round(normalized * size)`. -/
def resize_band_geometry (nb : ℚ × ℚ × ℚ × ℚ) (size : ℚ × ℚ) : ℤ × ℤ × ℤ × ℤ :=
  (pyRound (nb.1 * size.1), pyRound (nb.2.1 * size.2),
   pyRound (nb.2.2.1 * size.1), pyRound (nb.2.2.2 * size.2))

/-! ## The XML wire format

lxml `Element` nodes are modelled as a tag, a unique-keyed attribute
association list, and a child list.  `etree.tostring`/`fromstring` are
external; the codec claims are settled at the DOM level the code builds
and consumes. -/

structure Elem where
  tag : String
  attrs : List (String × String)
  children : List Elem

/-- `node.get(name)` on an attribute dictionary. -/
def getAttr (attrs : List (String × String)) (k : String) : Option String :=
  (attrs.find? fun kv => kv.1 = k).map Prod.snd

/-- `attributes.pop(name, None)`: the looked-up value together with the
dictionary without that key (attribute dictionaries have unique keys). -/
def popAttr (attrs : List (String × String)) (k : String) :
    Option String × List (String × String) :=
  (getAttr attrs k, attrs.filter fun kv => kv.1 ≠ k)

/-! ### Decoding (`_read_xml_database`, database.py lines 6-453) -/

/-- Recursion of `parse_simple_node_list` over the enumerated children. -/
def parse_simple_node_list_go (node_name attribute_name : String) :
    List Elem → Nat → Except String (List String)
  | [], _ => .ok []
  | c :: rest, i =>
    if c.tag ≠ node_name then
      .error ("Expected '" ++ node_name ++ "' but got '" ++ c.tag ++
              "' instead for child #" ++ toString i ++ ".")
    else
      match getAttr c.attrs attribute_name with
      | some v => (parse_simple_node_list_go node_name attribute_name rest (i + 1)).map
          fun vs => v :: vs
      | none =>
        -- lxml's get() yields null for a missing attribute and the null then
        -- flows into the vocabulary list; no claim observes that case, so the
        -- embedding reports it as a decode failure.
        .error ("missing attribute '" ++ attribute_name ++ "'")

/-- `parse_simple_node_list` (database.py lines 28-62). -/
def parse_simple_node_list (node : Elem) (node_name attribute_name : String) :
    Except String (List String) :=
  parse_simple_node_list_go node_name attribute_name node.children 0

/-- `parse_art_fields_node` (database.py lines 64-104). -/
def parse_art_fields_node (n : Elem) :
    Except String (List String × List String × List String) :=
  match n.children with
  | [c0, c1, c2] => do
    if c0.tag ≠ "Types" then
      throw ("Expected the 1st child to be 'Types', received '" ++ c0.tag ++ "'.")
    let types ← parse_simple_node_list c0 "Type" "name"
    if c1.tag ≠ "Sizes" then
      throw ("Expected the 2nd child to be 'Sizes', received '" ++ c1.tag ++ "'.")
    let sizes ← parse_simple_node_list c1 "Size" "name"
    if c2.tag ≠ "Qualities" then
      throw ("Expected the 3rd child to be 'Qualities', received '" ++ c2.tag ++ "'.")
    let qualities ← parse_simple_node_list c2 "Quality" "name"
    return (types, sizes, qualities)
  | cs => .error ("Expected 3 children, received " ++ toString cs.length ++ ".")

/-- The field-vocabulary dictionary returned by `parse_fields_node`
(keys `types`, `sizes`, `qualities`, `artists`). -/
structure ArtFields where
  types : List String
  sizes : List String
  qualities : List String
  artists : List String
deriving DecidableEq

/-- `parse_fields_node` (database.py lines 142-186); the source raises
`RuntimeError("")` (an empty message) on a misplaced child tag. -/
def parse_fields_node (n : Elem) : Except String (ArtFields × List String) :=
  match n.children with
  | [c0, c1, c2] => do
    if c0.tag ≠ "ArtFields" then throw ""
    let af ← parse_art_fields_node c0
    if c1.tag ≠ "ProcessingStates" then throw ""
    let states ← parse_simple_node_list c1 "State" "name"
    if c2.tag ≠ "Artists" then throw ""
    let artists ← parse_simple_node_list c2 "Artist" "name"
    return ({ types := af.1, sizes := af.2.1, qualities := af.2.2, artists := artists },
            states)
  | cs => .error ("parse_fields_node(): Expected 3 nodes but got " ++
                  toString cs.length ++ ".")

/-- `int(opt)` where `opt` came from `attributes.pop(key, None)`: both a
missing attribute (`int(None)` raises `TypeError`) and a malformed literal
(`ValueError`) abort the decode. -/
def convInt (opt : Option String) (what : String) : Except String Int :=
  match opt.bind pyInt with
  | some v => .ok v
  | none => .error ("invalid int for " ++ what)

/-- `float(opt)` for a popped attribute, as `convInt`. -/
def convFloat (opt : Option String) (what : String) : Except String ℚ :=
  match opt.bind pyFloat with
  | some v => .ok v
  | none => .error ("invalid float for " ++ what)

/-- A popped attribute that is subsequently used as a string (`.split`,
`.strip`): `None` would raise `AttributeError`. -/
def convStr (opt : Option String) (what : String) : Except String String :=
  match opt with
  | some v => .ok v
  | none => .error ("missing attribute " ++ what)

/-- `[v for v in map(float, s.split(","))]`; `float("")` raises exactly as
Python does, with the offending literal in the message. -/
def parseFloatList (s : String) : Except String (List ℚ) :=
  (pySplit s ',').mapM fun p =>
    match pyFloat p with
    | some q => Except.ok q
    | none => Except.error ("could not convert string to float: '" ++ p ++ "'")

/-- `[v for v in map(int, s.split("x"))]` for the resolution attribute. -/
def parseIntListX (s : String) : Except String (List Int) :=
  (pySplit s 'x').mapM fun p =>
    match pyInt p with
    | some n => Except.ok n
    | none => Except.error ("invalid literal for int() with base 10: '" ++ p ++ "'")

/-- The per-photo body of `parse_photos_node` (database.py lines 206-253):
pop the nine known attributes in source order, convert the wire forms, and
hand everything to `PhotoRecord`.  Any leftover attribute would be an
unexpected keyword for the constructor and raises. -/
def parse_photo_node (i : Nat) (e : Elem) : Except String PhotoRec := do
  if e.tag ≠ "Photo" then
    throw ("Expected a Photo node but got " ++ e.tag ++ " [#" ++ toString i ++ "].")
  let a0 := e.attrs
  let (idOpt, a1) := popAttr a0 "id"
  let id ← convInt idOpt "id"
  let (filenameOpt, a2) := popAttr a1 "filename"
  -- A null filename would flow into the record as-is; the typed embedding
  -- reports it as a decode failure (no claim observes it).
  let filename ← convStr filenameOpt "filename"
  let (resolutionOpt, a3) := popAttr a2 "resolution"
  let (stateOpt, a4) := popAttr a3 "processing_state"
  let (createdOpt, a5) := popAttr a4 "created_time"
  let created ← convFloat createdOpt "created_time"
  let (modifiedOpt, a6) := popAttr a5 "modified_time"
  let modified ← convFloat modifiedOpt "modified_time"
  let (locationOpt, a7) := popAttr a6 "location"
  let (rotationOpt, a8) := popAttr a7 "rotation"
  let rotation ← convInt rotationOpt "rotation"
  let (tagsOpt, a9) := popAttr a8 "tags"
  let resolutionS ← convStr resolutionOpt "resolution"
  let resolution ← parseIntListX resolutionS
  let tagsS ← convStr tagsOpt "tags"
  let tags := pySplitStrip tagsS ','
  let locationS ← convStr locationOpt "location"
  let location ←
    if (pyStrip locationS).length > 0 then
      (parseFloatList locationS).map fun l => some l
    else
      pure none
  if a9 ≠ [] then throw "unexpected keyword argument for PhotoRecord"
  return mkPhotoRecord 0 id filename resolution stateOpt location rotation
    (some created) (some modified) (some tags)

/-- Recursion of `parse_photos_node` over the enumerated children. -/
def parse_photos_node_go : List Elem → Nat → Except String (List PhotoRec)
  | [], _ => .ok []
  | c :: rest, i => do
    let p ← parse_photo_node i c
    let ps ← parse_photos_node_go rest (i + 1)
    return p :: ps

/-- `parse_photos_node` (database.py lines 188-255). -/
def parse_photos_node (n : Elem) : Except String (List PhotoRec) :=
  parse_photos_node_go n.children 0

/-- The per-art body of `parse_arts_node` (database.py lines 275-318): pop
the ten known attributes in source order and convert.  The remaining
attributes are forwarded as keyword arguments, so only `date`, `quality`
and `size` (constructor parameters not otherwise supplied) are allowed;
anything else raises `TypeError`.  Note that `region` is only parsed when
the attribute is present, but an empty region attribute reaches
`float("")` and raises. -/
def parse_art_node (i : Nat) (e : Elem) : Except String ArtRec := do
  if e.tag ≠ "Art" then
    throw ("Expected a Art node but got " ++ e.tag ++ " [#" ++ toString i ++ "].")
  let a0 := e.attrs
  let (idOpt, a1) := popAttr a0 "id"
  let id ← convInt idOpt "id"
  let (photoIdOpt, a2) := popAttr a1 "photo_id"
  let photo_id ← convInt photoIdOpt "photo_id"
  let (typeOpt, a3) := popAttr a2 "type"
  -- As for a photo filename: a null type would flow into the record as-is.
  let artType ← convStr typeOpt "type"
  let (stateOpt, a4) := popAttr a3 "processing_state"
  let (artistsOpt, a5) := popAttr a4 "artists"
  let (associatesOpt, a6) := popAttr a5 "associates"
  let (vandalsOpt, a7) := popAttr a6 "vandals"
  let (createdOpt, a8) := popAttr a7 "created_time"
  let created ← convFloat createdOpt "created_time"
  let (modifiedOpt, a9) := popAttr a8 "modified_time"
  let modified ← convFloat modifiedOpt "modified_time"
  let (regionOpt, a10) := popAttr a9 "region"
  let artistsS ← convStr artistsOpt "artists"
  let artists := pySplitStrip artistsS ','
  let associatesS ← convStr associatesOpt "associates"
  let associates := pySplitStrip associatesS ','
  let vandalsS ← convStr vandalsOpt "vandals"
  let vandals := pySplitStrip vandalsS ','
  let region ←
    match regionOpt with
    | some r => (parseFloatList r).map fun l => some l
    | none => pure (none : Option (List ℚ))
  let dateOpt := getAttr a10 "date"
  let qualityOpt := getAttr a10 "quality"
  let sizeOpt := getAttr a10 "size"
  if a10.any (fun kv => kv.1 ≠ "date" ∧ kv.1 ≠ "quality" ∧ kv.1 ≠ "size") then
    throw "unexpected keyword argument for ArtRecord"
  return mkArtRecord 0 id photo_id artType (some artists) (some associates)
    sizeOpt qualityOpt (some vandals) (some created) (some modified)
    dateOpt stateOpt region

/-- Recursion of `parse_arts_node` over the enumerated children. -/
def parse_arts_node_go : List Elem → Nat → Except String (List ArtRec)
  | [], _ => .ok []
  | c :: rest, i => do
    let p ← parse_art_node i c
    let ps ← parse_arts_node_go rest (i + 1)
    return p :: ps

/-- `parse_arts_node` (database.py lines 257-320). -/
def parse_arts_node (n : Elem) : Except String (List ArtRec) :=
  parse_arts_node_go n.children 0

/-- `validate_art_fields` (database.py lines 322-370).  All duplicate lists
are computed first; the checks then raise at the first violated condition
in a fixed order (types, sizes, qualities, artists, processing states,
each checking duplicates before emptiness).  The body reads the enclosing
`fields` variable, which holds exactly the two arguments passed at the
call site, so the embedding uses the arguments directly.  Note the source
typo "aprocessing" in the duplicate-states message. -/
def validate_art_fields (art_fields : ArtFields) (processing_states : List String) :
    Except String Unit :=
  let duplicate_art_types := pyDuplicates art_fields.types
  let duplicate_art_sizes := pyDuplicates art_fields.sizes
  let duplicate_art_qualities := pyDuplicates art_fields.qualities
  let duplicate_artists := pyDuplicates art_fields.artists
  let duplicate_processing_states := pyDuplicates processing_states
  if duplicate_art_types.length > 0 then
    .error ("Duplicate art types: " ++ String.intercalate ", " duplicate_art_types)
  else if art_fields.types.length = 0 then
    .error "No art types were parsed."
  else if duplicate_art_sizes.length > 0 then
    .error ("Duplicate art sizes: " ++ String.intercalate ", " duplicate_art_sizes)
  else if art_fields.sizes.length = 0 then
    .error "No art sizes were parsed."
  else if duplicate_art_qualities.length > 0 then
    .error ("Duplicate art qualities: " ++ String.intercalate ", " duplicate_art_qualities)
  else if art_fields.qualities.length = 0 then
    .error "No art qualities were parsed."
  else if duplicate_artists.length > 0 then
    .error ("Duplicate artists: " ++ String.intercalate ", " duplicate_artists)
  else if art_fields.artists.length = 0 then
    .error "No artists were parsed."
  else if duplicate_processing_states.length > 0 then
    .error ("Duplicate aprocessing states: " ++
            String.intercalate ", " duplicate_processing_states)
  else if processing_states.length = 0 then
    .error "No processing states were parsed."
  else
    .ok ()

/-- `validate_identifiers` (database.py lines 372-424): duplicate photo
ids, duplicate art ids and orphaned art ids are all computed, then the
checks raise in that order, each joining all offending ids into one
message. -/
def validate_identifiers (photos : List PhotoRec) (art : List ArtRec) :
    Except String Unit :=
  let photo_ids := photos.map fun p => p.id
  let duplicate_photo_ids := pyDuplicates photo_ids
  let duplicate_art_ids := pyDuplicates (art.map fun r => r.id)
  let orphaned_art_ids := (art.filter fun r => r.photo_id ∉ photo_ids).map fun r => r.id
  if duplicate_photo_ids.length > 0 then
    .error ("Duplicate photo ID: " ++
            String.intercalate ", " (duplicate_photo_ids.map toString) ++ ".")
  else if duplicate_art_ids.length > 0 then
    .error ("Duplicate art ID: " ++
            String.intercalate ", " (duplicate_art_ids.map toString) ++ ".")
  else if orphaned_art_ids.length > 0 then
    .error ("Orphaned art records: " ++
            String.intercalate ", " (orphaned_art_ids.map toString) ++ ".")
  else
    .ok ()

/-- The decoded quadruple: field vocabularies, processing states, photo
records and art records. -/
abbrev DbQuad := ArtFields × List String × List PhotoRec × List ArtRec

/-- `_read_xml_database` (database.py lines 6-453) applied to the parsed
document root: structural parsing of the three sections followed by the
two validation passes. -/
def read_xml_database (root : Elem) : Except String DbQuad :=
  match root.children with
  | [c0, c1, c2] => do
    if c0.tag ≠ "Fields" then throw ""
    let fields ← parse_fields_node c0
    if c1.tag ≠ "Photos" then throw ""
    let photos ← parse_photos_node c1
    if c2.tag ≠ "Arts" then throw ""
    let art ← parse_arts_node c2
    let _ ← validate_art_fields fields.1 fields.2
    let _ ← validate_identifiers photos art
    return (fields.1, fields.2, photos, art)
  | cs =>
    .error ("Expected 3 elements within the document, but received " ++
            toString cs.length ++ ".")

/-! ### Encoding (`_write_xml_database`, database.py lines 518-742) -/

/-- `create_simple_list_node` (database.py lines 544-575). -/
def create_simple_list_node (values : List String)
    (parent_name child_name attribute_name : String) : Elem :=
  { tag := parent_name
    attrs := []
    children := values.map fun v =>
      { tag := child_name, attrs := [(attribute_name, v)], children := [] } }

/-- `create_art_fields_node` (database.py lines 577-603). -/
def create_art_fields_node (art_types art_sizes art_qualities : List String) : Elem :=
  { tag := "ArtFields"
    attrs := []
    children :=
      [create_simple_list_node art_types "Types" "Type" "name",
       create_simple_list_node art_sizes "Sizes" "Size" "name",
       create_simple_list_node art_qualities "Qualities" "Quality" "name"] }

/-- `create_fields_node` (database.py lines 605-639). -/
def create_fields_node (art_fields : ArtFields) (processing_states : List String) : Elem :=
  { tag := "Fields"
    attrs := []
    children :=
      [create_art_fields_node art_fields.types art_fields.sizes art_fields.qualities,
       create_simple_list_node processing_states "ProcessingStates" "State" "name",
       create_simple_list_node art_fields.artists "Artists" "Artist" "name"] }

/-- One `Photo` element as written by `create_photos_node` (database.py
lines 660-678): a `None` location is written as an empty attribute. -/
def photoToElem (p : PhotoRec) : Elem :=
  { tag := "Photo"
    attrs :=
      [("created_time", floatToStr p.created_time),
       ("filename", p.filename),
       ("id", toString p.id),
       ("location",
         match p.location with
         | some loc => String.intercalate ", " (loc.map floatToStr)
         | none => ""),
       ("modified_time", floatToStr p.modified_time),
       ("processing_state", p.state),
       ("resolution", String.intercalate "x" (p.resolution.map toString)),
       ("rotation", toString p.rotation),
       ("tags", String.intercalate ", " p.tags)]
    children := [] }

/-- `create_photos_node` (database.py lines 641-680). -/
def create_photos_node (photos : List PhotoRec) : Elem :=
  { tag := "Photos", attrs := [], children := photos.map photoToElem }

/-- One `Art` element as written by `create_arts_node` (database.py lines
701-722): a `None` region is written as an empty attribute, and no `date`
attribute is ever written. -/
def artToElem (a : ArtRec) : Elem :=
  { tag := "Art"
    attrs :=
      [("artists", String.intercalate ", " a.artists),
       ("associates", String.intercalate ", " a.associates),
       ("created_time", floatToStr a.created_time),
       ("id", toString a.id),
       ("modified_time", floatToStr a.modified_time),
       ("photo_id", toString a.photo_id),
       ("processing_state", a.state),
       ("quality", a.quality),
       ("region",
         match a.region with
         | some r => String.intercalate ", " (r.map floatToStr)
         | none => ""),
       ("size", a.size),
       ("type", a.type),
       ("vandals", String.intercalate ", " a.vandals)]
    children := [] }

/-- `create_arts_node` (database.py lines 682-724). -/
def create_arts_node (arts : List ArtRec) : Elem :=
  { tag := "Arts", attrs := [], children := arts.map artToElem }

/-- The document root assembled by `_write_xml_database` (database.py
lines 726-736). -/
def write_xml_database (art_fields : ArtFields) (processing_states : List String)
    (photos : List PhotoRec) (arts : List ArtRec) : Elem :=
  { tag := "StreetArtDB"
    attrs := []
    children :=
      [create_fields_node art_fields processing_states,
       create_photos_node photos,
       create_arts_node arts] }

/-! ### The in-memory test database (`_read_memory_database`, database.py
lines 455-516) -/

/-- Field vocabularies of the in-memory database (lines 475-480). -/
def memoryArtFields : ArtFields :=
  { types := ["tag", "throwup", "wild_style", "mural", "sticker", "text", "other"]
    sizes := ["tiny", "small", "medium", "large", "huge"]
    qualities := ["bad", "poor", "fair", "good", "excellent"]
    artists := ["Amoz", "Badu", "Daru", "Drip", "EWO", "Fuck", "HBD",
                "Kolm", "Omar", "PBR", "Rulof", "TV", "Unknown", "Zebra"] }

/-- Processing states of the in-memory database (line 482). -/
def memoryProcessingStates : List String :=
  ["needs_review", "reviewed", "unreviewed"]

/-- Photo records of the in-memory database (lines 484-489), built through
the `PhotoRecord` constructor exactly as in the source. -/
def memoryPhotos : List PhotoRec :=
  [mkPhotoRecord 0 1 "images/P9400741.JPG" [4112, 3884] (some "reviewed")
     (some [0, 0]) 0 (some 1468507707) (some 1468507707) (some []),
   mkPhotoRecord 0 2 "images/P9400919.JPG" [4112, 3884] (some "reviewed")
     (some [0, 0]) 0 (some 1468507608) (some 1468507608) (some []),
   mkPhotoRecord 0 3 "images/P9410159.JPG" [4112, 3884] (some "reviewed")
     (some [0, 0]) 0 (some 1468507668) (some 1468507668) (some []),
   mkPhotoRecord 0 4 "images/P9430585.JPG" [4112, 3884] (some "reviewed")
     (some [0, 0]) 0 (some 1468507638) (some 1468507638) (some []),
   mkPhotoRecord 0 5 "images/P9440028.JPG" [4112, 3884] (some "unreviewed")
     (some [0, 0]) 0 (some 1468507546) (some 1468507546) (some []),
   mkPhotoRecord 0 6 "images/P9470260.JPG" [4112, 3884] (some "needs_review")
     (some [0, 0]) 0 (some 1468507567) (some 1468507567) (some [])]

/-- Art records of the in-memory database (lines 490-508), built through
the `ArtRecord` constructor with the source's positional arguments
`(id, photo_id, type, artists, associates, size, quality, vandals,
created_time, modified_time, date, state, region)`. -/
def memoryArts : List ArtRec :=
  [mkArtRecord 0 1 1 "throwup" (some ["Daru"]) (some []) (some "large") (some "good")
     (some []) (some 1234) (some 1234) none (some "reviewed")
     (some [0.2, 0.13924050632911392, 0.7142857142857143, 0.3291139240506329]),
   mkArtRecord 0 2 1 "throwup" (some ["Amoz"]) (some []) (some "large") (some "fair")
     (some []) (some 1234) (some 1234) none (some "reviewed")
     (some [0.24952380952380954, 0.41012658227848103, 0.3219047619047619, 0.3012658227848101]),
   mkArtRecord 0 3 1 "throwup" (some ["EWO"]) (some []) (some "large") (some "fair")
     (some []) (some 1234) (some 1234) none (some "reviewed")
     (some [0.5619047619047619, 0.3569620253164557, 0.42857142857142855, 0.3367088607594937]),
   mkArtRecord 0 4 1 "throwup" (some ["Unknown"]) (some []) (some "large") (some "poor")
     (some []) (some 1234) (some 1234) none (some "reviewed")
     (some [0.015238095238095238, 0.4, 0.26476190476190475, 0.29873417721518986]),
   mkArtRecord 0 5 2 "wild_style" (some ["Fuck"]) (some []) (some "huge") (some "excellent")
     (some []) (some 1234) (some 1234) (some "2016") (some "reviewed")
     (some [0.02857142857142857, 0.31645569620253167, 0.9352380952380952, 0.37721518987341773]),
   mkArtRecord 0 6 3 "throwup" (some ["Badu"]) (some ["PBR", "Zebra"]) (some "large")
     (some "excellent") (some []) (some 1234) (some 1234) (some "2016") (some "reviewed")
     (some [0.0419047619047619, 0.002531645569620253, 0.8819047619047619, 0.9772151898734177]),
   mkArtRecord 0 7 3 "tag" (some ["Badu"]) (some []) (some "small") (some "good")
     (some []) (some 1234) (some 1234) none (some "reviewed")
     (some [0.878095238095238, 0.6177215189873417, 0.10857142857142857, 0.10886075949367088]),
   mkArtRecord 0 8 3 "tag" (some ["Badu"]) (some []) (some "small") (some "good")
     (some []) (some 1234) (some 1234) none (some "reviewed")
     (some [0.8838095238095238, 0.1189873417721519, 0.10857142857142857, 0.10126582278481013]),
   mkArtRecord 0 9 4 "throwup" (some ["PBR"]) (some ["PBR", "Drip"]) (some "small")
     (some "good") (some []) (some 1234) (some 1234) none (some "reviewed")
     (some [0.0019047619047619048, 0.22025316455696203, 0.9447619047619048, 0.5569620253164557]),
   mkArtRecord 0 10 4 "tag" (some ["Drip"]) (some []) (some "small") (some "fair")
     (some []) (some 1234) (some 1234) none (some "reviewed")
     (some [0.7695238095238095, 0.5341772151898734, 0.12761904761904763, 0.10126582278481013]),
   mkArtRecord 0 11 4 "tag" (some ["MR", "Unknown"]) (some []) (some "small") (some "fair")
     (some []) (some 1234) (some 1234) none (some "needs_review")
     (some [0.7847619047619048, 0.6481012658227848, 0.09523809523809523, 0.1620253164556962]),
   mkArtRecord 0 12 5 "wild_style" (some ["Unknown"]) (some ["Rulof"]) (some "huge")
     (some "good") (some []) (some 1234) (some 1234) none (some "needs_review")
     (some [0.0019047619047619048, 0.2481012658227848, 1.0, 0.47341772151898737]),
   mkArtRecord 0 13 6 "mural" (some ["HBD"]) (some ["Omar"]) (some "large") (some "fair")
     (some []) (some 1234) (some 1234) (some "2014/11/21") (some "reviewed")
     (some [0.08, 0.3189873417721519, 0.4247619047619048, 0.4253164556962025]),
   mkArtRecord 0 14 6 "text" (some ["HBD"]) (some []) (some "small") (some "good")
     (some []) (some 1234) (some 1234) (some "2014/11/21") (some "reviewed")
     (some [0.4, 0.3240506329113924, 0.4266666666666667, 0.379746835443038])]

/-- `_read_memory_database` (database.py lines 455-516): a total function
that only assembles the literal structures above; none of the validation
routines (which are local to `_read_xml_database`) is invoked. -/
def read_memory_database : DbQuad :=
  (memoryArtFields, memoryProcessingStates, memoryPhotos, memoryArts)

/-! ## The Database object (database.py lines 1020-1297) -/

/-- The attributes of a `Database` instance the claims observe: the four
record collections and the `modified_data` dirty flag.  The backing file
name is represented by the `Option Elem` argument of `load_database`
(`none` models `filename is None`, the in-memory mode). -/
structure Database where
  art_fields : ArtFields
  processing_states : List String
  photos : List PhotoRec
  arts : List ArtRec
  modified_data : Bool
deriving DecidableEq

/-- `Database.load_database` (lines 1071-1090) for an XML backing store:
`read_func(filename)` is evaluated first and the four collections are
assigned only from its successful result, so a raised decode error leaves
every attribute of the database untouched (second component: the raised
message, `none` on success).  The dirty flag is not touched on either
path. -/
def load_database_xml (x : Elem) (db : Database) : Database × Option String :=
  match read_xml_database x with
  | .ok q =>
    ({ db with
        art_fields := q.1
        processing_states := q.2.1
        photos := q.2.2.1
        arts := q.2.2.2 }, none)
  | .error e => (db, some e)

/-- `Database.load_database` (lines 1071-1090): dispatch on the backing
store; no backing file name selects `_read_memory_database`. -/
def load_database (backing : Option Elem) (db : Database) : Database × Option String :=
  match backing with
  | none =>
    ({ db with
        art_fields := read_memory_database.1
        processing_states := read_memory_database.2.1
        photos := read_memory_database.2.2.1
        arts := read_memory_database.2.2.2 }, none)
  | some x => load_database_xml x db

/-- `Database.new_art_record` (lines 1195-1217): `max` of the existing art
identifiers plus one (`max([])` raises `ValueError`, modelled as `none`,
leaving the database unchanged), then append an `ArtRecord` with the
hardcoded type `"throwup"` and constructor defaults, mark dirty, and
return the appended record.  No validation of `photo_id` is performed. -/
def new_art_record (now : ℚ) (db : Database) (photo_id : Int) :
    Option (Database × ArtRec) :=
  match listMax (db.arts.map fun a => a.id) with
  | none => none
  | some m =>
    let record := mkArtRecord now (m + 1) photo_id "throwup"
      none none none none none none none none none none
    some ({ db with arts := db.arts ++ [record], modified_data := true }, record)

/-- `Database.delete_art_record` (lines 1219-1227): mark dirty, then keep
only the art records whose id differs. -/
def delete_art_record (db : Database) (art_id : Int) : Database :=
  { db with
      modified_data := true
      arts := db.arts.filter fun a => a.id ≠ art_id }

/-- A record-mutating database operation (the two art operations the
invariants claim ranges over). -/
inductive DbOp where
  | newArt (photo_id : Int)
  | delArt (art_id : Int)

/-- Apply one operation; a raising `new_art_record` call leaves the
database as it was (the exception propagates before the append). -/
def applyDbOp (db : Database) : DbOp → Database
  | .newArt pid =>
    match new_art_record 0 db pid with
    | some (db2, _) => db2
    | none => db
  | .delArt aid => delete_art_record db aid

/-- Apply a sequence of operations in order. -/
def applyDbOps (db : Database) (ops : List DbOp) : Database :=
  ops.foldl applyDbOp db

/-! ## Editor-session bookkeeping (record-editor.py)

`PhotoRecordViewer` keeps `photo_record_editors`, a dict from photo id to
the open `PhotoRecordEditor`; `PhotoRecordEditor` keeps
`art_record_editors` for its art records in exactly the same shape.
`selectionActivation` (lines 719-762) and `edit_art_record` (lines
1345-1379) both activate the existing window when the id is already a
key and only otherwise create a new editor for an existing record;
`remove_photo_editor` / `remove_art_editor` pop the id on close. -/

/-- The open-editor dictionary of one view: record id to window handle
(handles are abstract and modelled as naturals). -/
structure EditorMap where
  entries : List (Int × Nat)
deriving DecidableEq

/-- Outcome of an open request. -/
inductive OpenResult where
  | activated (handle : Nat)
  | created (handle : Nat)
  | ignored
deriving DecidableEq

/-- `selectionActivation` / `edit_art_record`: activate the existing
editor when one is open for `rid`; otherwise create a fresh editor
(handle `fresh`) when `rid` is one of the view's record ids; otherwise do
nothing (the `for ... break` loop finds no record). -/
def open_editor (m : EditorMap) (record_ids : List Int) (rid : Int) (fresh : Nat) :
    EditorMap × OpenResult :=
  match m.entries.find? fun kv => kv.1 = rid with
  | some kv => (m, .activated kv.2)
  | none =>
    if rid ∈ record_ids then
      ({ entries := m.entries ++ [(rid, fresh)] }, .created fresh)
    else
      (m, .ignored)

/-- `remove_photo_editor` / `remove_art_editor`: `dict.pop(rid, None)`. -/
def close_editor (m : EditorMap) (rid : Int) : EditorMap :=
  { entries := m.entries.filter fun kv => kv.1 ≠ rid }

/-- One coordinator event: an open request or an editor-closed signal. -/
inductive EditorEv where
  | openEv (record_ids : List Int) (rid : Int) (fresh : Nat)
  | closeEv (rid : Int)

/-- Apply one coordinator event to the open-editor map. -/
def applyEditorEv (m : EditorMap) : EditorEv → EditorMap
  | .openEv ids rid fresh => (open_editor m ids rid fresh).1
  | .closeEv rid => close_editor m rid

/-- Run a sequence of coordinator events. -/
def runEditorEvents (m : EditorMap) (evs : List EditorEv) : EditorMap :=
  evs.foldl applyEditorEv m

/-! ## Concrete states used by the individual claims -/

/-- A photo record whose mutable `tags` field has been set to `["foo"]`
after construction (tags is in `_mutable_keys`, so this is a reachable
database state). -/
def photoWithTags : PhotoRec :=
  { mkPhotoRecord 0 1 "images/a.jpg" [4112, 3884] (some "reviewed") none 0
      (some 1234) (some 1234) none with
    tags := ["foo"] }

/-- What `photoWithTags` becomes after one encode/decode round trip. -/
def photoRT : PhotoRec :=
  mkPhotoRecord 0 1 "images/a.jpg" [4112, 3884] (some "reviewed") none 0
    (some 1234) (some 1234) (some ["foo"])

/-- An art record with no region drawn yet (`region` is `None`). -/
def artNoRegion : ArtRec :=
  mkArtRecord 0 1 1 "throwup" none none none none none (some 1234) (some 1234)
    none (some "reviewed") none

/-- An art record carrying a date and a full-photo region. -/
def artDated : ArtRec :=
  mkArtRecord 0 1 1 "throwup" none none none none none (some 1234) (some 1234)
    (some "2016") (some "reviewed") (some [0, 0, 1, 1])

/-- What `artDated` becomes after one encode/decode round trip: the date
is gone and the empty `associates`/`vandals` lists come back as `[""]`. -/
def artDatedRT : ArtRec :=
  mkArtRecord 0 1 1 "throwup" (some ["Unknown"]) (some [""]) (some "medium")
    (some "fair") (some [""]) (some 1234) (some 1234) none (some "reviewed")
    (some [0, 0, 1, 1])

/-- The single photo record (id 1, resolution 4112 x 3884) of the seeded
scenario database. -/
def seedPhoto : PhotoRec :=
  mkPhotoRecord 0 1 "images/P9400741.JPG" [4112, 3884] none none 0
    (some 1468507707) (some 1468507707) none

/-- A database seeded with one photo record (id 1) and no art records. -/
def seededDb : Database :=
  { art_fields := memoryArtFields
    processing_states := memoryProcessingStates
    photos := [seedPhoto]
    arts := []
    modified_data := false }

/-- An art record with id 1 attached to photo 1. -/
def artOne : ArtRec :=
  mkArtRecord 0 1 1 "throwup" none none none none none (some 1234) (some 1234)
    none none none

/-- A valid database: one photo (id 1) and one art record (id 1) whose
`photo_id` references it. -/
def validDb : Database :=
  { seededDb with arts := [artOne] }

/-- The record `new_art_record` appends to `validDb`: id 2 and the
constructor defaults. -/
def nextArt : ArtRec :=
  mkArtRecord 0 2 1 "throwup" none none none none none none none none none none

/-- The record `new_art_record 999` appends to `validDb`: an orphan, since
no photo has id 999. -/
def orphanArt : ArtRec :=
  mkArtRecord 0 2 999 "throwup" none none none none none none none none none none

/-- Vocabularies with duplicates in two categories at once: `types` and
`sizes` each contain a repeated value. -/
def dupFields : ArtFields :=
  { types := ["tag", "tag"]
    sizes := ["small", "small"]
    qualities := ["fair"]
    artists := ["Unknown"] }

/-- A structurally invalid backing store: a document root with no
children. -/
def emptyRoot : Elem :=
  { tag := "StreetArtDB", attrs := [], children := [] }

/-- A fully loaded clean database (the in-memory contents). -/
def cleanDb : Database :=
  { art_fields := memoryArtFields
    processing_states := memoryProcessingStates
    photos := memoryPhotos
    arts := memoryArts
    modified_data := false }

/-- A `Record` instance with the photo schema's key lists (values are
irrelevant to the key checks, so naturals are stored). -/
def idRecord : PyRecord Nat :=
  { keys := photoReadableKeys
    mutable_keys := photoMutableKeys
    info := [("id", 1)] }

/-- A second photo-schema `Record` instance holding a rotation value. -/
def rotationRecord : PyRecord Nat :=
  { keys := photoReadableKeys
    mutable_keys := photoMutableKeys
    info := [("rotation", 0)] }

/-- An editor map with one open editor: record id 1, window handle 5. -/
def oneEditorMap : EditorMap :=
  { entries := [(1, 5)] }

/-! ## Helper lemmas -/

/-- `pyRound` is a nearest-integer rounding: its result is within one half
of the argument. -/
theorem pyRound_abs (q : ℚ) : |(pyRound q : ℚ) - q| ≤ 1 / 2 := by
  unfold pyRound
  by_cases h : q - ⌊q⌋ = 1 / 2
  · have hf : ((⌊q⌋ : ℤ) : ℚ) = q - 1 / 2 := by
      have := Int.floor_intCast (α := ℚ) ⌊q⌋
      linarith
    rw [if_pos h]
    by_cases h2 : 2 ∣ ⌊q⌋
    · rw [if_pos h2, abs_le]
      constructor <;> simp only [hf] <;> linarith
    · rw [if_neg h2, abs_le]
      push_cast
      constructor <;> simp only [hf] <;> linarith
  · rw [if_neg h, abs_sub_comm]
    exact abs_sub_round q

/-- Every element of a list (and the seed) is at most the `max` fold. -/
theorem foldl_max_le (xs : List Int) : ∀ (b a : Int), a ≤ b ∨ a ∈ xs →
    a ≤ xs.foldl max b := by
  induction xs with
  | nil =>
    intro b a h
    rcases h with h | h
    · simpa using h
    · simp at h
  | cons x xs ih =>
    intro b a h
    show a ≤ xs.foldl max (max b x)
    apply ih
    rcases h with h | h
    · exact Or.inl (le_trans h (le_max_left b x))
    · rcases List.mem_cons.mp h with h | h
      · exact Or.inl (h ▸ le_max_right b x)
      · exact Or.inr h

/-- The successor of the Python `max` of a list is never in the list. -/
theorem listMax_succ_not_mem (ids : List Int) (m : Int) (h : listMax ids = some m) :
    m + 1 ∉ ids := by
  intro hmem
  cases ids with
  | nil => simp [listMax] at h
  | cons x xs =>
    simp only [listMax, Option.some.injEq] at h
    have hle : m + 1 ≤ xs.foldl max x := by
      apply foldl_max_le
      rcases List.mem_cons.mp hmem with h2 | h2
      · exact Or.inl (le_of_eq h2)
      · exact Or.inr h2
    rw [h] at hle
    omega

/-- One database operation preserves distinctness of the art record ids. -/
theorem applyDbOp_art_ids_nodup (db : Database) (op : DbOp)
    (h : (db.arts.map fun a => a.id).Nodup) :
    (((applyDbOp db op).arts).map fun a => a.id).Nodup := by
  cases op with
  | newArt pid =>
    simp only [applyDbOp, new_art_record]
    cases hmax : listMax (db.arts.map fun a => a.id) with
    | none => exact h
    | some m =>
      simp only [List.map_append, List.map_cons, List.map_nil]
      rw [List.nodup_append]
      refine ⟨h, List.nodup_singleton _, ?_⟩
      intro a ha hb
      have hid : (mkArtRecord 0 (m + 1) pid "throwup"
          none none none none none none none none none none).id = m + 1 := rfl
      simp only [List.mem_singleton] at hb
      rw [hb, hid] at ha
      exact listMax_succ_not_mem _ m hmax ha
  | delArt aid =>
    simp only [applyDbOp, delete_art_record]
    exact List.Nodup.sublist (List.Sublist.map _ (List.filter_sublist _)) h

/-- One coordinator event preserves distinctness of the open-editor record
ids. -/
theorem applyEditorEv_keys_nodup (m : EditorMap) (ev : EditorEv)
    (h : (m.entries.map Prod.fst).Nodup) :
    (((applyEditorEv m ev).entries).map Prod.fst).Nodup := by
  cases ev with
  | openEv ids rid fresh =>
    simp only [applyEditorEv, open_editor]
    cases hfind : m.entries.find? fun kv => kv.1 = rid with
    | some kv => exact h
    | none =>
      by_cases hmem : rid ∈ ids
      · simp only [hmem, if_pos]
        simp only [List.map_append, List.map_cons, List.map_nil]
        rw [List.nodup_append]
        refine ⟨h, List.nodup_singleton _, ?_⟩
        intro a ha hb
        simp only [List.mem_singleton] at hb
        subst hb
        have := List.find?_eq_none.mp hfind
        rcases List.mem_map.mp ha with ⟨kv, hkv, hfst⟩
        have := this kv hkv
        simp only [decide_eq_true_eq] at this
        exact this hfst
      · simp only [hmem, if_neg, ite_false]
        exact h
  | closeEv rid =>
    simp only [applyEditorEv, close_editor]
    exact List.Nodup.sublist (List.Sublist.map _ (List.filter_sublist _)) h

/-- Any event sequence preserves distinctness of the open-editor keys. -/
theorem runEditorEvents_keys_nodup (evs : List EditorEv) : ∀ (m : EditorMap),
    (m.entries.map Prod.fst).Nodup →
    (((runEditorEvents m evs).entries).map Prod.fst).Nodup := by
  induction evs with
  | nil => intro m h; exact h
  | cons ev evs ih =>
    intro m h
    exact ih _ (applyEditorEv_keys_nodup m ev h)

/-! ## Claim theorems -/

/-- C1.  The claimed round trip `decode(encode(x)) = x` fails on the code:
a photo's mutable `tags` value is reset to `[]` by the decoder (the
`PhotoRecord` constructor discards the parsed tags, as it does the parsed
resolution), an art record with an absent (`None`) region is written as an
empty attribute but decoding that empty attribute raises at `float("")`
instead of restoring `None`, an art `date` is never written at all and so
decodes to `None`, and empty list fields come back as `[""]`.  An absent
location does round trip. -/
theorem decode_encode_loses_fields :
    parse_photos_node (create_photos_node [photoWithTags]) = .ok [photoRT] ∧
    photoWithTags.tags = ["foo"] ∧ photoRT.tags = [] ∧
    photoWithTags.location = none ∧ photoRT.location = none ∧
    parse_arts_node (create_arts_node [artNoRegion]) =
      .error "could not convert string to float: ''" ∧
    artNoRegion.region = none ∧
    parse_arts_node (create_arts_node [artDated]) = .ok [artDatedRT] ∧
    artDated.date = some "2016" ∧ artDatedRT.date = none ∧
    artDated.associates = [] ∧ artDatedRT.associates = [""] := by
  refine ⟨?_, rfl, rfl, rfl, rfl, ?_, rfl, ?_, rfl, rfl, rfl, rfl⟩ <;>
    with_unfolding_all rfl

/-- C2.  On the claim's own scenario (a database seeded with one photo
record of id 1 and no art records) `new_art_record(1)` does not return an
`ArtRecord` with id 1: `max([])` raises `ValueError` (modelled as `none`).
When at least one art record exists the operation does behave as claimed:
on a database whose single art record has id 1 it appends id 2 = max + 1
with the hardcoded type `"throwup"`, region `None`, state `"unreviewed"`,
and sets the dirty flag. -/
theorem new_art_record_empty_crash_scenario :
    new_art_record 0 seededDb 1 = none ∧
    seededDb.photos = [seedPhoto] ∧ seedPhoto.id = 1 ∧ seededDb.arts = [] ∧
    seededDb.modified_data = false ∧
    new_art_record 0 validDb 1 =
      some ({ validDb with arts := [artOne, nextArt], modified_data := true }, nextArt) ∧
    nextArt.id = 2 ∧ nextArt.type = "throwup" ∧ nextArt.region = none ∧
    nextArt.state = "unreviewed" := by
  refine ⟨rfl, rfl, rfl, rfl, rfl, ?_, rfl, rfl, rfl, rfl⟩
  with_unfolding_all rfl

/-- C3 counterexample.  Load-time validation does not report duplicates
for all vocabulary categories: on vocabularies whose `types` and `sizes`
both contain duplicates, the raised error is exactly the types message and
the duplicated size (`"small"`) goes unreported. -/
theorem validate_art_fields_first_category_only :
    validate_art_fields dupFields ["unreviewed"] = .error "Duplicate art types: tag" ∧
    pyDuplicates dupFields.sizes = ["small"] := by
  exact ⟨rfl, rfl⟩

/-- C3 amended.  Validation raises at the first violated check in a fixed
order, with all offending items of that check joined into one message:
whenever the art types contain duplicates the error lists exactly all
duplicated types (regardless of other categories), and loading two photo
records that share an id raises a `ValidationError` naming the shared id
(all duplicated photo ids are joined into the one message). -/
theorem validation_reports_first_failed_check (f : ArtFields) (ps : List String)
    (h : pyDuplicates f.types ≠ []) (i : Int) (p1 p2 : PhotoRec)
    (h1 : p1.id = i) (h2 : p2.id = i) :
    validate_art_fields f ps =
      .error ("Duplicate art types: " ++
              String.intercalate ", " (pyDuplicates f.types)) ∧
    validate_identifiers [p1, p2] [] =
      .error ("Duplicate photo ID: " ++ toString i ++ ".") := by
  constructor
  · unfold validate_art_fields
    rw [if_pos]
    exact List.length_pos.mpr h
  · have hdup : pyDuplicates ([p1, p2].map fun p => p.id) = [i] := by
      simp only [List.map_cons, List.map_nil, h1, h2]
      simp [pyDuplicates, firstOccurrences, List.count_cons]
    unfold validate_identifiers
    simp only [hdup]
    rw [if_pos (by simp)]
    rfl

/-- Witness for the C3 amended theorem at concrete inputs. -/
theorem validation_reports_first_failed_check_witness :
    validate_art_fields dupFields ["x", "x"] =
      .error ("Duplicate art types: " ++
              String.intercalate ", " (pyDuplicates dupFields.types)) ∧
    validate_identifiers [seedPhoto, seedPhoto] [] =
      .error ("Duplicate photo ID: " ++ toString (1 : Int) ++ ".") :=
  validation_reports_first_failed_check dupFields ["x", "x"] (by decide)
    1 seedPhoto seedPhoto rfl rfl

/-- C4.  On any record built with the photo schema's mutable-key list,
setting `rotation` or `location` raises an immutable-key error (although
the repository's own ingest tool assigns `photo["rotation"]`), while the
four declared mutable keys are assignable. -/
theorem photo_rotation_location_set_fails {V : Type} (r : PyRecord V) (v : V)
    (h : r.mutable_keys = photoMutableKeys) :
    r.setItem "rotation" v = .error ("rotation" ++ " is not a mutable key!") ∧
    r.setItem "location" v = .error ("location" ++ " is not a mutable key!") ∧
    r.setItem "filename" v = .ok { r with info := dictSet r.info "filename" v } ∧
    r.setItem "modified_time" v =
      .ok { r with info := dictSet r.info "modified_time" v } ∧
    r.setItem "state" v = .ok { r with info := dictSet r.info "state" v } ∧
    r.setItem "tags" v = .ok { r with info := dictSet r.info "tags" v } := by
  refine ⟨?_, ?_, ?_, ?_, ?_, ?_⟩ <;>
    simp [PyRecord.setItem, h, photoMutableKeys]

/-- Witness for C4 at a concrete record and value. -/
theorem photo_rotation_location_set_fails_witness :
    rotationRecord.setItem "rotation" 90 =
      .error ("rotation" ++ " is not a mutable key!") ∧
    rotationRecord.setItem "location" 90 =
      .error ("location" ++ " is not a mutable key!") ∧
    rotationRecord.setItem "filename" 90 =
      .ok { rotationRecord with info := dictSet rotationRecord.info "filename" 90 } ∧
    rotationRecord.setItem "modified_time" 90 =
      .ok { rotationRecord with info := dictSet rotationRecord.info "modified_time" 90 } ∧
    rotationRecord.setItem "state" 90 =
      .ok { rotationRecord with info := dictSet rotationRecord.info "state" 90 } ∧
    rotationRecord.setItem "tags" 90 =
      .ok { rotationRecord with info := dictSet rotationRecord.info "tags" 90 } :=
  photo_rotation_location_set_fails rotationRecord 90 rfl

/-- C5 counterexample.  `new_art_record` performs no referential check: on
a valid database (one photo, id 1; one art record referencing it) the call
`new_art_record(999)` succeeds and inserts an art record whose `photo_id`
999 matches no photo, as the load-time validator itself then reports. -/
theorem new_art_record_inserts_orphan :
    validate_identifiers validDb.photos validDb.arts = .ok () ∧
    new_art_record 0 validDb 999 =
      some ({ validDb with arts := [artOne, orphanArt], modified_data := true },
            orphanArt) ∧
    orphanArt.photo_id = 999 ∧
    (validDb.photos.map fun p => p.id) = [1] ∧
    validate_identifiers validDb.photos [artOne, orphanArt] =
      .error "Orphaned art records: 2." := by
  refine ⟨rfl, ?_, rfl, rfl, rfl⟩
  with_unfolding_all rfl

/-- C5 amended.  After any sequence of `new_art_record` and
`delete_art_record` calls on a database whose art ids are distinct, the
art ids remain distinct (new ids are `max + 1`, hence fresh); but
`new_art_record` never validates its `photo_id` argument, so referential
integrity is only checked at load time (see the counterexample). -/
theorem art_ids_nodup_preserved (db : Database) (ops : List DbOp)
    (h : (db.arts.map fun a => a.id).Nodup) :
    (((applyDbOps db ops).arts).map fun a => a.id).Nodup := by
  induction ops generalizing db with
  | nil => exact h
  | cons op ops ih =>
    show (((applyDbOps (applyDbOp db op) ops).arts).map fun a => a.id).Nodup
    exact ih _ (applyDbOp_art_ids_nodup db op h)

/-- Witness for C5 amended on a concrete database and operation list. -/
theorem art_ids_nodup_preserved_witness :
    (((applyDbOps validDb
        [DbOp.newArt 999, DbOp.delArt 1, DbOp.newArt 1]).arts).map
      fun a => a.id).Nodup :=
  art_ids_nodup_preserved validDb [DbOp.newArt 999, DbOp.delArt 1, DbOp.newArt 1]
    (by decide)

/-- C6.  Requesting an editor for a record id that already has one open
returns the map unchanged and activates the existing handle instead of
creating a second editor, and the open-editor map of a view keeps at most
one entry per record id across any sequence of open and close events
(photo and art editor maps follow the identical code path). -/
theorem open_editor_at_most_one_per_id (m : EditorMap) (ids : List Int)
    (rid : Int) (fresh : Nat) (kv : Int × Nat) (evs : List EditorEv)
    (hfind : (m.entries.find? fun e => e.1 = rid) = some kv)
    (hnodup : (m.entries.map Prod.fst).Nodup) :
    open_editor m ids rid fresh = (m, .activated kv.2) ∧
    (((runEditorEvents m evs).entries).map Prod.fst).Nodup := by
  constructor
  · simp [open_editor, hfind]
  · exact runEditorEvents_keys_nodup evs m hnodup

/-- Witness for C6 on a concrete map and event sequence. -/
theorem open_editor_at_most_one_per_id_witness :
    open_editor oneEditorMap [1, 2] 1 7 = (oneEditorMap, .activated 5) ∧
    (((runEditorEvents oneEditorMap
        [EditorEv.openEv [1, 2] 2 8, EditorEv.openEv [1, 2] 1 9,
         EditorEv.closeEv 1]).entries).map Prod.fst).Nodup :=
  open_editor_at_most_one_per_id oneEditorMap [1, 2] 1 7 (1, 5)
    [EditorEv.openEv [1, 2] 2 8, EditorEv.openEv [1, 2] 1 9, EditorEv.closeEv 1]
    rfl (by decide)

/-- C7.  Setting a key outside the mutable set (an immutable key such as
`id`, or an undeclared key) on any `Record` raises the immutable-key
`KeyError` and leaves the record exactly as it was; `id` is outside the
mutable sets of both concrete schemas. -/
theorem set_immutable_key_fails_record_unchanged {V : Type} (r : PyRecord V)
    (key : String) (v : V) (h : key ∉ r.mutable_keys) :
    r.setItem key v = .error (key ++ " is not a mutable key!") ∧
    r.setItemState key v = r ∧
    "id" ∉ photoMutableKeys ∧ "id" ∉ artMutableKeys := by
  refine ⟨?_, ?_, by decide, by decide⟩
  · simp [PyRecord.setItem, h]
  · simp [PyRecord.setItemState, PyRecord.setItem, h]

/-- Witness for C7: `record["id"] = 5` on a photo-schema record. -/
theorem set_immutable_key_fails_record_unchanged_witness :
    idRecord.setItem "id" 5 = .error ("id" ++ " is not a mutable key!") ∧
    idRecord.setItemState "id" 5 = idRecord ∧
    "id" ∉ photoMutableKeys ∧ "id" ∉ artMutableKeys :=
  set_immutable_key_fails_record_unchanged idRecord "id" 5 (by decide)

/-- C8.  When decoding the backing store fails anywhere, `load_database`
leaves every attribute of the database (the four collections and the
dirty flag) exactly as before: the read function is evaluated before any
attribute is assigned, so the raised error propagates with the previous
state intact. -/
theorem load_xml_failure_preserves_database (x : Elem) (db : Database)
    (e : String) (h : read_xml_database x = .error e) :
    load_database (some x) db = (db, some e) := by
  simp [load_database, load_database_xml, h]

/-- Witness for C8: a childless document root fails structurally and a
loaded database survives untouched. -/
theorem load_xml_failure_preserves_database_witness :
    load_database (some emptyRoot) cleanDb =
      (cleanDb, some "Expected 3 elements within the document, but received 0.") :=
  load_xml_failure_preserves_database emptyRoot cleanDb
    "Expected 3 elements within the document, but received 0." rfl

/-- C9 counterexample.  The paint-time conversion of a normalized band to
pixels (`paintEvent`) does not round: at label size 790 x 590 the x
component of the drawn geometry for band `(0.25, 0, 0.1, 0.1)` is the
non-integer 395/2. -/
theorem paint_geometry_not_rounded :
    paint_band_geometry (1 / 4, 0, 1 / 10, 1 / 10) (790, 590) =
      (395 / 2, 0, 79, 59) ∧
    ((395 : ℚ) / 2).den = 2 := by
  constructor <;> with_unfolding_all rfl

/-- C9 amended.  The resize-path conversion (`resizeEvent`) does round
every component to the nearest integer pixel (each output is within one
half of the exact product), while the paint-path conversion scales without
rounding; on the claim's scenario both paths take `(0.25, 0.25, 0.5, 0.5)`
at 800 x 600 to exactly `(200, 150, 400, 300)`. -/
theorem resize_rounds_paint_scales (nb : ℚ × ℚ × ℚ × ℚ) (size : ℚ × ℚ) :
    |((resize_band_geometry nb size).1 : ℚ) - nb.1 * size.1| ≤ 1 / 2 ∧
    |((resize_band_geometry nb size).2.1 : ℚ) - nb.2.1 * size.2| ≤ 1 / 2 ∧
    |((resize_band_geometry nb size).2.2.1 : ℚ) - nb.2.2.1 * size.1| ≤ 1 / 2 ∧
    |((resize_band_geometry nb size).2.2.2 : ℚ) - nb.2.2.2 * size.2| ≤ 1 / 2 ∧
    resize_band_geometry (1 / 4, 1 / 4, 1 / 2, 1 / 2) (800, 600) =
      (200, 150, 400, 300) ∧
    paint_band_geometry (1 / 4, 1 / 4, 1 / 2, 1 / 2) (800, 600) =
      (200, 150, 400, 300) := by
  refine ⟨pyRound_abs _, pyRound_abs _, pyRound_abs _, pyRound_abs _, ?_, ?_⟩ <;>
    with_unfolding_all rfl

/-- C10.  A database with no backing file name loads the in-memory seed:
the memory read path is a total function that performs none of the
integrity checks (they live inside the XML reader), so this load always
succeeds and never raises a validation error. -/
theorem memory_load_always_succeeds (db : Database) :
    load_database none db =
      ({ db with
          art_fields := memoryArtFields
          processing_states := memoryProcessingStates
          photos := memoryPhotos
          arts := memoryArts }, none) := rfl

end StreetArt
